import Mathlib

/-!
Verification of the BingoOJ remote submission orchestrator
(`src/src-tauri/src/main.rs`).

The Rust code is shallowly embedded: pure helper functions become Lean
functions over `List Char` / `String` / `Nat`; the stateful webview
submission attempt becomes explicit state passing over a small record;
fallible code returns `Except String _`.  External effects (the HTTP
client, the scraper HTML library, the webview runtime, the `curl`
process) are modelled as explicit parameters carrying their results, so
that the orchestration logic layered on top of them is embedded exactly.
-/

/-! ## String utilities

Rust `str::contains`, `str::find` (first occurrence) and digit parsing,
modelled over the character lists of Lean strings. -/

/-- Substring containment test: does the haystack contain the needle
anywhere (Rust `str::contains`)? -/
def containsSub (needle : List Char) : List Char → Bool
  | [] => needle.isEmpty
  | c :: t => needle.isPrefixOf (c :: t) || containsSub needle t

/-- String-level substring containment (Rust `str::contains`). -/
def strContains (s pat : String) : Bool :=
  containsSub pat.data s.data

/-- Locate the first occurrence of `needle` in the haystack and return
the suffix that follows it (Rust `str::find` plus slicing past the
needle), or `none` when the needle does not occur. -/
def findTail (needle : List Char) : List Char → Option (List Char)
  | [] => if needle.isEmpty then some [] else none
  | c :: t =>
    if needle.isPrefixOf (c :: t) then some ((c :: t).drop needle.length)
    else findTail needle t

/-- Parse a list of ASCII digits as a natural number, most significant
first (Rust `str::parse::<u64>` on a digit-only slice; overflow is not
modelled since ids fit in `u64` by construction of the site). -/
def parseDigits (digits : List Char) : Nat :=
  digits.foldl (fun n c => n * 10 + (c.toNat - 48)) 0

/-! ## Submission id extraction (`extract_submission_id_from_url`) -/

/-- Embeds `extract_submission_id_from_url`: find the
`/contest/{contestId}/submission/` needle in the URL, take the ASCII
digits that follow, and parse them; `none` when the needle is missing or
no digits follow. -/
def extract_submission_id_from_url (url : String) (contest_id : Nat) : Option Nat :=
  let needle := "/contest/" ++ toString contest_id ++ "/submission/"
  match findTail needle.data url.data with
  | none => none
  | some rest =>
    let digits := rest.takeWhile Char.isDigit
    if digits.isEmpty then none else some (parseDigits digits)

/-! ## The webview submission attempt (C1)

`cf_submit_solution` builds a webview with two event handlers sharing a
`WebviewSubmitState` behind a mutex and an
`Arc<Mutex<Option<SyncSender<Result<u64, String>>>>>` wrapping the
sending half of a `sync_channel(1)`.  We model the mutable state of one
submission attempt as a record: the handler flags, whether the sender is
still present (`Some(tx)`), and the contents of the single-slot
channel.  Window show/close/focus calls are UI effects with no bearing
on the channel and are not modelled. -/

structure WebviewSubmitState where
  form_submitted : Bool
  inspect_requested : Bool
deriving DecidableEq, Repr

/-- Outcome sent through the completion channel: `Result<u64, String>`. -/
abbrev SubmitOutcome := Except String Nat

structure SubmitAttempt where
  submit_state : WebviewSubmitState
  /-- whether the `Option<SyncSender<_>>` still holds the sender -/
  sender : Bool
  /-- contents of the capacity-one channel -/
  slot : Option SubmitOutcome
deriving Repr

/-- Initial state of a submission attempt, as set up in
`cf_submit_solution`: fresh flags, sender present, channel empty. -/
def initSubmitAttempt : SubmitAttempt :=
  { submit_state := ⟨false, false⟩, sender := true, slot := none }

/-- Embeds `finish_webview_submit`: `take()` the sender out of the
mutex; if it was present, send the result (the channel is empty at that
point because the sender existed exactly once). -/
def finish_webview_submit (att : SubmitAttempt) (result : SubmitOutcome) : SubmitAttempt :=
  if att.sender then { att with sender := false, slot := some result }
  else { att with sender := false }

/-- Embeds `prompt_webview_submit_verification`: identical channel
behaviour, sending `Err(message)`. -/
def prompt_webview_submit_verification (att : SubmitAttempt) (message : String) : SubmitAttempt :=
  if att.sender then { att with sender := false, slot := some (Except.error message) }
  else { att with sender := false }

/-- Message used for anti-bot challenge outcomes in
`cf_submit_solution`. -/
def antiBotMessage : String :=
  "Please complete the anti-bot verification in the opened Codeforces window, then click Submit again."

/-- Sentinel title marker the injected scripts use to signal errors. -/
def errTitleMarker : String := "__BINGOOJ_SUBMIT_ERROR__:"

/-- Embeds the `on_page_load` closure of `cf_submit_solution` (for
`PageLoadEvent::Finished` events; other events return immediately).
The `window.eval` of the submit/inspect scripts is an effect on the
page, not on the attempt state beyond the flags. -/
def on_page_load (contest_id : Nat) (att : SubmitAttempt) (url : String) : SubmitAttempt :=
  if strContains url "__cf_chl" then
    prompt_webview_submit_verification att antiBotMessage
  else
    match extract_submission_id_from_url url contest_id with
    | some sid => finish_webview_submit att (Except.ok sid)
    | none =>
      if !strContains url "/submit" then att
      else if !att.submit_state.form_submitted then
        { att with submit_state := { att.submit_state with form_submitted := true } }
      else if !att.submit_state.inspect_requested then
        { att with submit_state := { att.submit_state with inspect_requested := true } }
      else att

/-- Embeds the `on_document_title_changed` closure of
`cf_submit_solution`. -/
def on_document_title_changed (att : SubmitAttempt) (title : String) : SubmitAttempt :=
  if title.startsWith errTitleMarker then
    prompt_webview_submit_verification att (title.drop errTitleMarker.length)
  else if title = "__BINGOOJ_SUBMITTING__" then att
  else if strContains title "Just a moment"
      || strContains title "Please complete the anti-bot verification" then
    prompt_webview_submit_verification att antiBotMessage
  else att

/-- Events a submission attempt's webview can deliver to the two
registered handlers. -/
inductive SubmitEvent where
  | pageLoad (url : String)
  | titleChanged (title : String)
deriving Repr

def handle_submit_event (contest_id : Nat) (att : SubmitAttempt) : SubmitEvent → SubmitAttempt
  | SubmitEvent.pageLoad url => on_page_load contest_id att url
  | SubmitEvent.titleChanged title => on_document_title_changed att title

/-- Run a sequence of webview events against an attempt state. -/
def run_submit_events (contest_id : Nat) (att : SubmitAttempt)
    (events : List SubmitEvent) : SubmitAttempt :=
  events.foldl (handle_submit_event contest_id) att

/-- A challenge-page URL (contains the `__cf_chl` marker). -/
def challengeUrl : String :=
  "https://codeforces.com/problemset/submit?__cf_chl_tk=abc"

/-- A successful-submission URL for contest 10. -/
def successUrl : String :=
  "https://codeforces.com/contest/10/submission/123456"

example : extract_submission_id_from_url successUrl 10 = some 123456 := by decide
example : strContains challengeUrl "__cf_chl" = true := by decide

/-- Once the sender has been taken, neither handler can change the
channel slot, and the sender stays absent. -/
lemma handle_submit_event_consumed (cid : Nat) (att : SubmitAttempt) (e : SubmitEvent)
    (h : att.sender = false) :
    (handle_submit_event cid att e).slot = att.slot
      ∧ (handle_submit_event cid att e).sender = false := by
  cases e with
  | pageLoad url =>
    simp only [handle_submit_event, on_page_load, prompt_webview_submit_verification,
      finish_webview_submit, h]
    split
    · simp
    · split
      · simp
      · split
        · simp [h]
        · split
          · simp [h]
          · split
            · simp [h]
            · simp [h]
  | titleChanged title =>
    simp only [handle_submit_event, on_document_title_changed,
      prompt_webview_submit_verification, h]
    split
    · simp
    · split
      · simp [h]
      · split
        · simp
        · simp [h]

/-- Folding any event list over a consumed attempt leaves the slot
unchanged and the sender absent. -/
lemma run_submit_events_consumed (cid : Nat) (att : SubmitAttempt)
    (events : List SubmitEvent) (h : att.sender = false) :
    (run_submit_events cid att events).slot = att.slot
      ∧ (run_submit_events cid att events).sender = false := by
  induction events generalizing att with
  | nil => exact ⟨rfl, h⟩
  | cons e es ih =>
    have step := handle_submit_event_consumed cid att e h
    have rest := ih (handle_submit_event cid att e) step.2
    exact ⟨rest.1.trans step.1, rest.2⟩

/-- Each event either leaves the channel slot untouched or consumes the
sender (which must still have been present). -/
lemma handle_submit_event_send_consumes (cid : Nat) (att : SubmitAttempt) (e : SubmitEvent) :
    (handle_submit_event cid att e).slot = att.slot
      ∨ (att.sender = true ∧ (handle_submit_event cid att e).sender = false) := by
  by_cases h : att.sender = false
  · exact Or.inl (handle_submit_event_consumed cid att e h).1
  · have h' : att.sender = true := by
      cases hs : att.sender
      · exact absurd hs h
      · rfl
    cases e with
    | pageLoad url =>
      simp only [handle_submit_event, on_page_load, prompt_webview_submit_verification,
        finish_webview_submit, h']
      split
      · exact Or.inr ⟨trivial, by simp⟩
      · split
        · exact Or.inr ⟨trivial, by simp⟩
        · split
          · exact Or.inl rfl
          · split
            · exact Or.inl rfl
            · split
              · exact Or.inl rfl
              · exact Or.inl rfl
    | titleChanged title =>
      simp only [handle_submit_event, on_document_title_changed,
        prompt_webview_submit_verification, h']
      split
      · exact Or.inr ⟨trivial, by simp⟩
      · split
        · exact Or.inl rfl
        · split
          · exact Or.inr ⟨trivial, by simp⟩
          · exact Or.inl rfl

/-- C1: the completion channel delivers at most one outcome per
submission attempt.  Any single event either leaves the channel slot
unchanged or consumes the still-present sender; once the sender is
consumed, every later event list leaves the slot unchanged (later sends
are no-ops); and firing a challenge-URL page load followed by a
success-URL page load from a fresh attempt leaves the first outcome (the
anti-bot error) in the channel, the second event being a no-op. -/
theorem submit_channel_at_most_one_outcome :
    (∀ (cid : Nat) (att : SubmitAttempt) (e : SubmitEvent),
        (handle_submit_event cid att e).slot = att.slot
          ∨ (att.sender = true ∧ (handle_submit_event cid att e).sender = false))
    ∧ (∀ (cid : Nat) (att : SubmitAttempt) (events : List SubmitEvent),
        att.sender = false →
          (run_submit_events cid att events).slot = att.slot
            ∧ (run_submit_events cid att events).sender = false)
    ∧ (run_submit_events 10 initSubmitAttempt
          [SubmitEvent.pageLoad challengeUrl, SubmitEvent.pageLoad successUrl]).slot
        = some (Except.error antiBotMessage) :=
  ⟨handle_submit_event_send_consumes,
   run_submit_events_consumed,
   rfl⟩

/-- Witness for C1: a concrete consumed attempt plus a success-URL event
leaves the slot at its already-delivered outcome. -/
theorem submit_channel_at_most_one_outcome_witness :
    (run_submit_events 10
        { submit_state := ⟨true, false⟩, sender := false,
          slot := some (Except.error antiBotMessage) }
        [SubmitEvent.pageLoad successUrl]).slot
      = some (Except.error antiBotMessage) :=
  (submit_channel_at_most_one_outcome.2.1 10
    { submit_state := ⟨true, false⟩, sender := false,
      slot := some (Except.error antiBotMessage) }
    [SubmitEvent.pageLoad successUrl] rfl).1

/-! ## Authentication state (C2, C3, C9)

`CodeforcesAuthState` is the mutex-guarded session record.  The network
fetch of the profile page and the scraper-based handle extraction are
external effects: `verify_codeforces_auth` is parametrised by the fetch
outcome (final post-redirect URL and body on success) and by the handle
parser `parse_codeforces_handle` applied to the body. -/

structure CodeforcesAuthState where
  connected : Bool
  checking : Bool
  expired : Bool
  handle : Option String
  last_url : Option String
  message : String
deriving DecidableEq, Repr

/-- Embeds `CodeforcesAuthState::signed_out`. -/
def CodeforcesAuthState.signed_out : CodeforcesAuthState :=
  { connected := false, checking := false, expired := false,
    handle := none, last_url := none, message := "提交前请先登录" }

/-- Embeds `CodeforcesAuthState::expired` (named `expiredState` here
because the field projection already takes the source name). -/
def CodeforcesAuthState.expiredState : CodeforcesAuthState :=
  { connected := false, checking := false, expired := true,
    handle := none, last_url := none,
    message := "Codeforces 登录已过期，请重新登录" }

/-- Embeds `verify_codeforces_auth`.  `cookie_header` is the result of
`codeforces_cookie_header` (None for an empty jar); `fetch` is the
profile-page GET through the blocking client (error string on any
transport/HTTP failure, otherwise the final URL and body);
`parse_handle` is `parse_codeforces_handle` over the scraper library. -/
def verify_codeforces_auth (cookie_header : Option String)
    (fetch : Except String (String × String))
    (parse_handle : String → Option String) :
    Except String CodeforcesAuthState :=
  match cookie_header with
  | none => Except.ok CodeforcesAuthState.signed_out
  | some _ =>
    match fetch with
    | Except.error e => Except.error e
    | Except.ok (final_url, body) =>
      if strContains final_url "/enter" then
        Except.ok { CodeforcesAuthState.expiredState with last_url := some final_url }
      else
        let handle := parse_handle body
        let message :=
          match handle with
          | some h => "已登录：" ++ h
          | none => "已登录，可以提交代码"
        Except.ok { connected := true, checking := false, expired := false,
                    handle := handle, last_url := some final_url, message := message }

/-- Embeds the state written by the error arm of the thread spawned in
`schedule_codeforces_auth_refresh` (keeping the current `last_url`). -/
def schedule_refresh_error_state (current_last_url : Option String)
    (err : String) : CodeforcesAuthState :=
  { connected := false, checking := false, expired := false,
    handle := none, last_url := current_last_url, message := err }

/-- The spec invariant on auth states: `connected` and `expired` are
mutually exclusive, and `handle` is set only when `connected`. -/
def authStateInvariant (s : CodeforcesAuthState) : Prop :=
  ¬(s.connected = true ∧ s.expired = true)
    ∧ (s.handle.isSome = true → s.connected = true)

/-- C2: every auth state written to the shared store by the signed-out
and expired constructors, by any successful result of
`verify_codeforces_auth`, and by the error path of
`schedule_codeforces_auth_refresh` satisfies the invariant. -/
theorem auth_state_writes_satisfy_invariant :
    authStateInvariant CodeforcesAuthState.signed_out
    ∧ authStateInvariant CodeforcesAuthState.expiredState
    ∧ (∀ (ch : Option String) (fetch : Except String (String × String))
          (ph : String → Option String) (s : CodeforcesAuthState),
        verify_codeforces_auth ch fetch ph = Except.ok s → authStateInvariant s)
    ∧ (∀ (u : Option String) (e : String),
        authStateInvariant (schedule_refresh_error_state u e)) := by
  refine ⟨⟨by simp [CodeforcesAuthState.signed_out], by simp [CodeforcesAuthState.signed_out]⟩,
    ⟨by simp [CodeforcesAuthState.expiredState], by simp [CodeforcesAuthState.expiredState]⟩,
    ?_, fun u e => ⟨by simp [schedule_refresh_error_state], by simp [schedule_refresh_error_state]⟩⟩
  intro ch fetch ph s h
  cases ch with
  | none =>
    simp only [verify_codeforces_auth, Except.ok.injEq] at h
    subst h
    exact ⟨by simp [CodeforcesAuthState.signed_out], by simp [CodeforcesAuthState.signed_out]⟩
  | some c =>
    cases fetch with
    | error e => simp [verify_codeforces_auth] at h
    | ok p =>
      obtain ⟨final_url, body⟩ := p
      simp only [verify_codeforces_auth] at h
      by_cases hu : strContains final_url "/enter" = true
      · rw [if_pos hu] at h
        simp only [Except.ok.injEq] at h
        subst h
        exact ⟨by simp [CodeforcesAuthState.expiredState],
               by simp [CodeforcesAuthState.expiredState]⟩
      · rw [if_neg hu] at h
        simp only [Except.ok.injEq] at h
        subst h
        exact ⟨by simp, by simp⟩

/-- Witness for C2: the verify arm applied to an empty cookie jar, which
produces the signed-out state. -/
theorem auth_state_writes_satisfy_invariant_witness :
    authStateInvariant CodeforcesAuthState.signed_out :=
  auth_state_writes_satisfy_invariant.2.2.1 none (Except.ok ("u", "b"))
    (fun _ => none) CodeforcesAuthState.signed_out rfl

/-- C3: with a non-empty cookie jar and a successful profile fetch whose
final URL matches the login-page pattern (contains `/enter`), verify
returns exactly the expired state carrying that URL: `connected = false`
and `expired = true`, never signed-out or connected. -/
theorem verify_login_redirect_yields_expired
    (cookieHeader final_url body : String) (ph : String → Option String)
    (h : strContains final_url "/enter" = true) :
    verify_codeforces_auth (some cookieHeader) (Except.ok (final_url, body)) ph
        = Except.ok { CodeforcesAuthState.expiredState with last_url := some final_url }
      ∧ ∀ s, verify_codeforces_auth (some cookieHeader) (Except.ok (final_url, body)) ph
          = Except.ok s → s.connected = false ∧ s.expired = true := by
  constructor
  · simp [verify_codeforces_auth, h]
  · intro s hs
    simp only [verify_codeforces_auth, if_pos h, Except.ok.injEq] at hs
    subst hs
    exact ⟨rfl, rfl⟩

/-- Witness for C3: a concrete redirect to the login page. -/
theorem verify_login_redirect_yields_expired_witness :
    verify_codeforces_auth (some "JSESSIONID=x")
        (Except.ok ("https://codeforces.com/enter?back=%2F", "<html></html>"))
        (fun _ => none)
      = Except.ok { CodeforcesAuthState.expiredState with
                      last_url := some "https://codeforces.com/enter?back=%2F" } :=
  (verify_login_redirect_yields_expired "JSESSIONID=x"
    "https://codeforces.com/enter?back=%2F" "<html></html>" (fun _ => none)
    (by decide)).1

/-! ## Verdict polling (C4, C8, C9, C10)

`cf_get_submission_status` reads the shared auth state, requires a
handle, fetches the latest status entries from the judge API and matches
one.  The JSON fetch is an external effect: the parameter carries either
the transport error, `none` when `data["result"]` is not an array, or
the decoded entry list.  JSON field accesses like
`entry["id"].as_u64()` become `Option` fields of `StatusEntry`. -/

structure StatusEntry where
  id : Option Nat
  contestId : Option Nat
  problemIndex : Option String
  creationTimeSeconds : Option Nat
  verdict : Option String
  passedTestCount : Option Nat
  programmingLanguage : Option String
deriving DecidableEq, Repr

structure CodeforcesSubmissionStatus where
  found : Bool
  id : Option Nat
  verdict : Option String
  passed_test_count : Option Nat
  programming_language : Option String
  status_text : String
  finished : Bool
  debug : Option String
deriving DecidableEq, Repr

/-- The closure used by the heuristic (no-submission-id) match:
contest id and problem index equal and
`creationTimeSeconds.unwrap_or_default() >= submitted_after.saturating_sub(7200)`
(Nat subtraction is saturating, exactly like `saturating_sub`). -/
def heuristicMatch (contest_id : Nat) (index : String) (submitted_after : Nat)
    (e : StatusEntry) : Bool :=
  e.contestId == some contest_id && e.problemIndex == some index
    && decide (submitted_after - 7200 ≤ e.creationTimeSeconds.getD 0)

/-- Optional passed-test-count suffix used by the status-text arms. -/
def passedSuffix (word : String) (ptc : Option Nat) : String :=
  match ptc with
  | some count => " " ++ word ++ " " ++ toString count ++ " tests"
  | none => ""

/-- Embeds `cf_get_submission_status` after the HTTP client setup: the
handle guard, the id / heuristic match over the fetched entries, the
diagnostic not-found record, and the verdict mapping. -/
def cf_get_submission_status (state : CodeforcesAuthState)
    (fetch : Except String (Option (List StatusEntry)))
    (contest_id : Nat) (index : String)
    (submission_id : Option Nat) (submitted_after : Nat) :
    Except String CodeforcesSubmissionStatus :=
  match state.handle with
  | none => Except.error "Codeforces handle is not available yet. Please log in again."
  | some handle =>
    match fetch with
    | Except.error e => Except.error e
    | Except.ok none =>
      Except.error "Codeforces submission status API returned an unexpected payload"
    | Except.ok (some entries) =>
      let matched :=
        match submission_id with
        | some sid => entries.find? (fun (e : StatusEntry) => e.id == some sid)
        | none => entries.find? (heuristicMatch contest_id index submitted_after)
      match matched with
      | none =>
        let recent_candidates :=
          ((entries.filter (fun (e : StatusEntry) =>
              e.contestId == some contest_id && e.problemIndex == some index)).take 3).map
            (fun (e : StatusEntry) => "#" ++ toString (e.id.getD 0) ++ " "
              ++ toString (e.creationTimeSeconds.getD 0) ++ " "
              ++ (e.verdict.getD "PENDING"))
        Except.ok
          { found := false, id := none, verdict := none, passed_test_count := none,
            programming_language := none,
            status_text := "Waiting for Codeforces to register the submission...",
            finished := false,
            debug := some ("handle=" ++ handle ++ ", contest=" ++ toString contest_id
              ++ ", index=" ++ index ++ ", submission_id=" ++ toString submission_id
              ++ ", submitted_after=" ++ toString submitted_after ++ ", recent="
              ++ (if recent_candidates.isEmpty then "none"
                  else String.intercalate " | " recent_candidates)) }
      | some entry =>
        let verdict := entry.verdict
        let passed_test_count := entry.passedTestCount
        let finished := (verdict.map (fun v => v != "TESTING")).getD false
        let status_text :=
          match verdict with
          | some "OK" => "Accepted on Codeforces" ++ passedSuffix "after" passed_test_count ++ "."
          | some "TESTING" =>
            "Testing on Codeforces" ++ passedSuffix "passed" passed_test_count ++ "..."
          | some v => v ++ " on Codeforces" ++ passedSuffix "after" passed_test_count ++ "."
          | none => "Submission is in queue on Codeforces..."
        Except.ok
          { found := true, id := entry.id, verdict := verdict,
            passed_test_count := passed_test_count,
            programming_language := entry.programmingLanguage,
            status_text := status_text, finished := finished, debug := none }

/-- The single status entry of the spec fixture. -/
def fixtureEntry : StatusEntry :=
  { id := some 5, contestId := some 10, problemIndex := some "A",
    creationTimeSeconds := some 1000, verdict := some "OK",
    passedTestCount := none, programmingLanguage := none }

/-- A connected auth state carrying a parsed handle, used to drive
polls. -/
def pollState : CodeforcesAuthState :=
  { connected := true, checking := false, expired := false,
    handle := some "alice", last_url := none, message := "" }

/-- C4: on the fixture entry list, polling by `submissionId = 5` finds
the entry with verdict `OK`; polling with no id, contest 10, index `A`,
`submittedAfter = 900` matches the same entry; polling with
`submittedAfter = 50000` (creation time outside the 2-hour slack) finds
nothing. -/
theorem poll_matching_fixture :
    ((cf_get_submission_status pollState (Except.ok (some [fixtureEntry]))
        10 "A" (some 5) 900).toOption.map
      (fun r => (r.found, r.id, r.verdict)) = some (true, some 5, some "OK"))
    ∧ ((cf_get_submission_status pollState (Except.ok (some [fixtureEntry]))
        10 "A" none 900).toOption.map
      (fun r => (r.found, r.id, r.verdict)) = some (true, some 5, some "OK"))
    ∧ ((cf_get_submission_status pollState (Except.ok (some [fixtureEntry]))
        10 "A" none 50000).toOption.map
      (fun r => r.found) = some false) := by
  refine ⟨?_, ?_, ?_⟩ <;> rfl

/-- A poll against a state without a handle fails with the fixed error
before the fetch result is even inspected. -/
lemma cf_get_submission_status_handle_none (st : CodeforcesAuthState)
    (fetch : Except String (Option (List StatusEntry)))
    (cid : Nat) (idx : String) (sid : Option Nat) (sa : Nat)
    (h : st.handle = none) :
    cf_get_submission_status st fetch cid idx sid sa
      = Except.error "Codeforces handle is not available yet. Please log in again." := by
  unfold cf_get_submission_status
  rw [h]

/-- C8: in every record a poll successfully produces, `finished` is true
exactly when a verdict is present and differs from the in-progress
`TESTING` value; the not-found record (absent verdict) has
`finished = false`. -/
theorem poll_finished_iff_nontesting (st : CodeforcesAuthState)
    (fetch : Except String (Option (List StatusEntry)))
    (cid : Nat) (idx : String) (sid : Option Nat) (sa : Nat)
    (r : CodeforcesSubmissionStatus)
    (h : cf_get_submission_status st fetch cid idx sid sa = Except.ok r) :
    r.finished = true ↔ ∃ v, r.verdict = some v ∧ v ≠ "TESTING" := by
  unfold cf_get_submission_status at h
  cases hh : st.handle with
  | none => rw [hh] at h; simp at h
  | some handle =>
    rw [hh] at h
    cases fetch with
    | error e => simp at h
    | ok o =>
      cases o with
      | none => simp at h
      | some entries =>
        simp only at h
        split at h
        · simp only [Except.ok.injEq] at h
          subst h
          simp
        · simp only [Except.ok.injEq] at h
          subst h
          rcases hverd : (by assumption : StatusEntry).verdict with _ | v
          · simp [hverd]
          · simp [hverd, bne_iff_ne]

/-- Witness for C8: the record produced by the id-match poll on the
fixture entry. -/
theorem poll_finished_iff_nontesting_witness :
    ({ found := true, id := some 5, verdict := some "OK",
       passed_test_count := none, programming_language := none,
       status_text := "Accepted on Codeforces.", finished := true,
       debug := none } : CodeforcesSubmissionStatus).finished = true
      ↔ ∃ v, ({ found := true, id := some 5, verdict := some "OK",
                passed_test_count := none, programming_language := none,
                status_text := "Accepted on Codeforces.", finished := true,
                debug := none } : CodeforcesSubmissionStatus).verdict = some v
            ∧ v ≠ "TESTING" :=
  poll_finished_iff_nontesting pollState (Except.ok (some [fixtureEntry]))
    10 "A" (some 5) 900 _ rfl

/-- C9: whenever the stored auth state has no handle, polling returns
the fixed error without depending on the API fetch at all — and the
verifier really can produce such a state with `connected = true` (a
valid session whose handle could not be parsed). -/
theorem poll_requires_handle :
    (∀ (st : CodeforcesAuthState) (fetch : Except String (Option (List StatusEntry)))
        (cid : Nat) (idx : String) (sid : Option Nat) (sa : Nat),
      st.handle = none →
        cf_get_submission_status st fetch cid idx sid sa
          = Except.error "Codeforces handle is not available yet. Please log in again.")
    ∧ (∀ (ch final_url body : String),
        strContains final_url "/enter" = false →
          ∃ s, verify_codeforces_auth (some ch) (Except.ok (final_url, body))
                (fun _ => none) = Except.ok s
            ∧ s.connected = true ∧ s.handle = none
            ∧ ∀ (fetch : Except String (Option (List StatusEntry)))
                (cid : Nat) (idx : String) (sid : Option Nat) (sa : Nat),
                cf_get_submission_status s fetch cid idx sid sa
                  = Except.error "Codeforces handle is not available yet. Please log in again.") := by
  constructor
  · intro st fetch cid idx sid sa h
    exact cf_get_submission_status_handle_none st fetch cid idx sid sa h
  · intro ch final_url body hurl
    refine ⟨{ connected := true, checking := false, expired := false,
              handle := none, last_url := some final_url,
              message := "已登录，可以提交代码" }, ?_, rfl, rfl, ?_⟩
    · simp [verify_codeforces_auth, hurl]
    · intro fetch cid idx sid sa
      exact cf_get_submission_status_handle_none _ fetch cid idx sid sa rfl

/-- Witness for C9: a signed-out state (handle absent) makes a concrete
poll fail with the fixed error. -/
theorem poll_requires_handle_witness :
    cf_get_submission_status CodeforcesAuthState.signed_out
        (Except.ok (some [fixtureEntry])) 10 "A" none 0
      = Except.error "Codeforces handle is not available yet. Please log in again." :=
  poll_requires_handle.1 CodeforcesAuthState.signed_out
    (Except.ok (some [fixtureEntry])) 10 "A" none 0 rfl

/-- C10: the heuristic time-window match has only a lower bound — an
entry matches exactly when contest id and index agree and its creation
time is at least `submittedAfter - 7200` (saturating) — so entries
created arbitrarily far after `submittedAfter` still match and are
found by a full poll. -/
theorem heuristic_window_lower_bound_only :
    (∀ (cid : Nat) (idx : String) (sa : Nat) (e : StatusEntry),
      heuristicMatch cid idx sa e = true ↔
        (e.contestId = some cid ∧ e.problemIndex = some idx
          ∧ sa - 7200 ≤ e.creationTimeSeconds.getD 0))
    ∧ (∀ (cid : Nat) (idx : String) (sa k : Nat) (pid ptc : Option Nat)
         (v pl : Option String),
        (cf_get_submission_status pollState
            (Except.ok (some [{ id := pid, contestId := some cid,
                                problemIndex := some idx,
                                creationTimeSeconds := some (sa + k),
                                verdict := v, passedTestCount := ptc,
                                programmingLanguage := pl }]))
            cid idx none sa).toOption.map (fun r => r.found) = some true) := by
  constructor
  · intro cid idx sa e
    simp [heuristicMatch, and_assoc]
  · intro cid idx sa k pid ptc v pl
    have hle : sa - 7200 ≤ sa + k :=
      le_trans (Nat.sub_le sa 7200) (Nat.le_add_right sa k)
    simp only [cf_get_submission_status, List.find?, heuristicMatch]
    simp [hle, pollState, Except.toOption]

/-! ## Submit-form page parsing (C5)

`parse_submit_form_page` walks the submit-page HTML with the scraper
library: it locates the form holding both a `csrf_token` input and a
`programTypeId` option, collects that form's named inputs in document
order into `hidden_fields` and its non-empty-valued options into
`language_options`.  That DOM walk belongs to the external HTML library;
the embedding starts from the collected lists, and keeps the raw HTML
for the inline-script fallbacks, which are plain substring scans
embedded below. -/

/-- The single-quote character, built numerically. -/
def squote : String := String.mk [Char.ofNat 39]

/-- Embeds `hidden_field_value`: first field with the given name. -/
def hidden_field_value (fields : List (String × String)) (name : String) : Option String :=
  fields.findSome? (fun p => if p.1 = name then some p.2 else none)

/-- Inner loop of `extract_js_string_value`: try each pattern, read the
quote-delimited value after its first occurrence, skipping patterns that
are absent or yield an empty value. -/
def extract_from_string_patterns (html : List Char) : List (List Char) → Option String
  | [] => none
  | p :: rest =>
    match findTail p html with
    | none => extract_from_string_patterns html rest
    | some tail =>
      match p.getLast? with
      | none => none
      | some quote =>
        let value := tail.takeWhile (fun c => c ≠ quote)
        if value.isEmpty then extract_from_string_patterns html rest
        else some (String.mk value)

/-- Embeds `extract_js_string_value` with its six source patterns. -/
def extract_js_string_value (html var_name : String) : Option String :=
  extract_from_string_patterns html.data
    [("window." ++ var_name ++ " = \"").data,
     ("window." ++ var_name ++ "=" ++ squote).data,
     ("var " ++ var_name ++ " = \"").data,
     ("var " ++ var_name ++ "=" ++ squote).data,
     (var_name ++ " = \"").data,
     (var_name ++ "=" ++ squote).data]

/-- Inner loop of `extract_js_number_value`: after the first occurrence
of a pattern, skip whitespace and read ASCII digits, skipping patterns
that are absent or yield no digits. -/
def extract_from_number_patterns (html : List Char) : List (List Char) → Option String
  | [] => none
  | p :: rest =>
    match findTail p html with
    | none => extract_from_number_patterns html rest
    | some tail =>
      let value := (tail.dropWhile (fun c => c.isWhitespace)).takeWhile Char.isDigit
      if value.isEmpty then extract_from_number_patterns html rest
      else some (String.mk value)

/-- Embeds `extract_js_number_value` with its three source patterns. -/
def extract_js_number_value (html var_name : String) : Option String :=
  extract_from_number_patterns html.data
    [("window." ++ var_name ++ " = ").data,
     ("var " ++ var_name ++ " = ").data,
     (var_name ++ " = ").data]

structure SubmitFormPage where
  csrf_token : String
  hidden_fields : List (String × String)
  language_options : List (String × String)
  ftaa : Option String
  bfaa : Option String
  tta : Option String
deriving DecidableEq, Repr

/-- Embeds `parse_submit_form_page` from the point where the form's
named inputs (`hidden_fields`) and language options have been collected
by the HTML library.  The csrf token is the value of the last
`csrf_token` input, mirroring the overwriting loop in the source; the
anti-forgery tokens prefer the hidden-field value and fall back to the
inline-script scan only when the field is absent. -/
def parse_submit_form_page (hidden_fields language_options : List (String × String))
    (html : String) : Except String SubmitFormPage :=
  let csrf_token := hidden_fields.foldl
    (fun acc p => if p.1 = "csrf_token" then some p.2 else acc)
    (none : Option String)
  let ftaa := (hidden_field_value hidden_fields "ftaa").orElse
    (fun _ => extract_js_string_value html "_ftaa")
  let bfaa := (hidden_field_value hidden_fields "bfaa").orElse
    (fun _ => extract_js_string_value html "_bfaa")
  let tta := (hidden_field_value hidden_fields "_tta").orElse
    (fun _ => extract_js_number_value html "_tta")
  match csrf_token with
  | none => Except.error "Codeforces csrf token was not found"
  | some token =>
    Except.ok { csrf_token := token, hidden_fields := hidden_fields,
                language_options := language_options,
                ftaa := ftaa, bfaa := bfaa, tta := tta }

/-- The C5 fixture: hidden fields of the submit form. -/
def c5_hidden_fields : List (String × String) :=
  [("csrf_token", "T1"), ("ftaa", ""), ("bfaa", "")]

/-- The C5 fixture page: contains the inline script `var _tta = 377;`. -/
def c5_html : String :=
  "<html><body><form></form><script>var _tta = 377;</script></body></html>"

/-- Counterexample for C5: on the fixture, parsing succeeds but the
empty `ftaa` hidden value is NOT replaced by a script-derived fallback —
the parsed `ftaa` stays the empty hidden value, while the script scan
for `_ftaa` finds nothing. -/
theorem submit_form_empty_ftaa_not_replaced :
    (parse_submit_form_page c5_hidden_fields [] c5_html).toOption.map SubmitFormPage.ftaa
        = some (some "")
      ∧ extract_js_string_value c5_html "_ftaa" = none
      ∧ ¬((parse_submit_form_page c5_hidden_fields [] c5_html).toOption.map
            SubmitFormPage.ftaa
          = some (extract_js_string_value c5_html "_ftaa")) := by
  refine ⟨rfl, rfl, ?_⟩
  decide

/-- C5 as amended: on the fixture page, building the submission data
does not fail, `csrf_token` is `T1`, `_tta` is the script-derived
`"377"` (no `_tta` hidden field exists), and the empty `ftaa`/`bfaa`
hidden values are kept as empty strings — the script-derived fallback is
consulted only when a hidden field is absent entirely. -/
theorem submit_form_fixture_parses :
    (parse_submit_form_page c5_hidden_fields [] c5_html).toOption.map
        (fun p => (p.csrf_token, p.ftaa, p.bfaa, p.tta))
      = some ("T1", some "", some "", some "377") := by
  decide

/-! ## Retrying HTTP fetcher (C6)

`fetch_codeforces_html` makes up to 3 attempts with the primary
`reqwest` client and then falls back once to the `curl` transport.  The
primary client is an external effect: `attempt i` carries the outcome of
the `i`-th GET (the formatted error message of whichever of the three
source failure arms fired, or the body).  The `thread::sleep` back-off
has no bearing on the returned value and is not modelled. -/

/-- Embeds `curl_fetch_text` around the spawned `curl` process: a
successful exit yields the stdout body, a failure yields an error
message carrying the prior (composite) error. -/
def curl_fetch_text (prior_error : String) (curl : Except String String) :
    Except String String :=
  match curl with
  | Except.ok body => Except.ok body
  | Except.error e => Except.error (prior_error ++ "; " ++ e)

/-- The bounded retry loop of `fetch_codeforces_html`: `fuel` remaining
attempts starting at attempt number `i`, tracking the last error. -/
def fetchAttempts (attempt : Nat → Except String String) :
    Nat → Nat → String → Except String String
  | _, 0, last_error => Except.error last_error
  | i, fuel + 1, _ =>
    match attempt i with
    | Except.ok html => Except.ok html
    | Except.error e =>
      fetchAttempts attempt (i + 1) fuel ("attempt " ++ toString i ++ ": " ++ e)

lemma fetchAttempts_succ (attempt : Nat → Except String String)
    (i fuel : Nat) (s : String) :
    fetchAttempts attempt i (fuel + 1) s
      = match attempt i with
        | Except.ok html => Except.ok html
        | Except.error e =>
          fetchAttempts attempt (i + 1) fuel ("attempt " ++ toString i ++ ": " ++ e) := rfl

/-- Embeds `fetch_codeforces_html`: 3 primary attempts, then one `curl`
fallback carrying the composite error message. -/
def fetch_codeforces_html (attempt : Nat → Except String String)
    (curl : Except String String) : Except String String :=
  match fetchAttempts attempt 1 3 "" with
  | Except.ok html => Except.ok html
  | Except.error last_error =>
    curl_fetch_text
      ("failed to fetch Codeforces problem page after 3 reqwest attempts: " ++ last_error)
      curl

/-- The retry loop only consults attempts `i .. i + fuel - 1`. -/
lemma fetchAttempts_congr (a a' : Nat → Except String String) :
    ∀ (fuel i : Nat) (s : String),
      (∀ j, i ≤ j → j < i + fuel → a j = a' j) →
      fetchAttempts a i fuel s = fetchAttempts a' i fuel s := by
  intro fuel
  induction fuel with
  | zero => intro i s _; rfl
  | succ n ih =>
    intro i s h
    have hi : a i = a' i := h i (le_refl i) (by omega)
    rw [fetchAttempts_succ, fetchAttempts_succ, hi]
    cases a' i with
    | ok html => rfl
    | error e => exact ih (i + 1) _ (fun j hj1 hj2 => h j (by omega) (by omega))

/-- C6: the fetcher performs at most 3 primary attempts (its result
depends only on the outcomes of attempts 1-3) followed by at most one
fallback; a first-attempt success short-circuits everything, and when
all 3 primary attempts fail while the fallback succeeds, the fetch
returns the fallback's body rather than an error. -/
theorem fetch_retries_then_falls_back :
    (∀ (a a' : Nat → Except String String) (curl : Except String String),
      a 1 = a' 1 → a 2 = a' 2 → a 3 = a' 3 →
        fetch_codeforces_html a curl = fetch_codeforces_html a' curl)
    ∧ (∀ (a : Nat → Except String String) (curl : Except String String) (body : String),
      a 1 = Except.ok body → fetch_codeforces_html a curl = Except.ok body)
    ∧ (∀ (a : Nat → Except String String) (e1 e2 e3 body : String),
      a 1 = Except.error e1 → a 2 = Except.error e2 → a 3 = Except.error e3 →
        fetch_codeforces_html a (Except.ok body) = Except.ok body) := by
  refine ⟨?_, ?_, ?_⟩
  · intro a a' curl h1 h2 h3
    unfold fetch_codeforces_html
    rw [fetchAttempts_congr a a' 3 1 "" ?_]
    intro j hj1 hj2
    interval_cases j <;> assumption
  · intro a curl body h1
    unfold fetch_codeforces_html
    rw [show (3 : Nat) = 2 + 1 from rfl, fetchAttempts_succ, h1]
  · intro a e1 e2 e3 body h1 h2 h3
    unfold fetch_codeforces_html
    rw [show (3 : Nat) = 2 + 1 from rfl, fetchAttempts_succ, h1]
    show (match fetchAttempts a 2 (1 + 1) ("attempt " ++ toString 1 ++ ": " ++ e1) with
          | Except.ok html => Except.ok html
          | Except.error last_error =>
            curl_fetch_text
              ("failed to fetch Codeforces problem page after 3 reqwest attempts: "
                ++ last_error) (Except.ok body))
        = Except.ok body
    rw [fetchAttempts_succ, h2]
    show (match fetchAttempts a 3 (0 + 1) ("attempt " ++ toString 2 ++ ": " ++ e2) with
          | Except.ok html => Except.ok html
          | Except.error last_error =>
            curl_fetch_text
              ("failed to fetch Codeforces problem page after 3 reqwest attempts: "
                ++ last_error) (Except.ok body))
        = Except.ok body
    rw [fetchAttempts_succ, h3]
    rfl

/-- Witness for C6: three refused primary attempts and a successful
fallback yield the fallback's body. -/
theorem fetch_retries_then_falls_back_witness :
    fetch_codeforces_html (fun _ => Except.error "connection refused")
        (Except.ok "fallback body")
      = Except.ok "fallback body" :=
  fetch_retries_then_falls_back.2.2 (fun _ => Except.error "connection refused")
    "connection refused" "connection refused" "connection refused" "fallback body"
    rfl rfl rfl

/-! ## Language option selection (C7) -/

/-- Embeds `codeforces_language_needles` (the needle list serialised
into the injected submit script). -/
def codeforces_language_needles (lang : String) : List String :=
  match lang with
  | "cpp" => ["GNU G++23", "GNU G++20", "GNU G++17", "GNU C++17", "GNU G++14"]
  | "py" => ["Python 3", "PyPy 3"]
  | "js" => ["Node.js", "JavaScript"]
  | _ => []

/-- The per-language preference list inlined in
`select_program_type_id` (textually identical to the needle list). -/
def languagePreferences (lang : String) : List String :=
  match lang with
  | "cpp" => ["GNU G++23", "GNU G++20", "GNU G++17", "GNU C++17", "GNU G++14"]
  | "py" => ["Python 3", "PyPy 3"]
  | "js" => ["Node.js", "JavaScript"]
  | _ => []

/-- The preference loop of `select_program_type_id`: for each needle in
order, return the first option whose label contains it. -/
def selectByNeedles : List String → List (String × String) → Option String
  | [], _ => none
  | needle :: rest, options =>
    match options.find? (fun p => strContains p.2 needle) with
    | some p => some p.1
    | none => selectByNeedles rest options

/-- Embeds `select_program_type_id`. -/
def select_program_type_id (options : List (String × String)) (lang : String) :
    Option String :=
  selectByNeedles (languagePreferences lang) options

/-- C7: for `cpp` with options `42 ↦ GNU G++17` and `7 ↦ GNU C++11`, the
chosen value is `42`; in general, when the preference list decomposes as
`pre ++ needle :: post` with no option label containing any needle of
`pre` and some option label containing `needle`, the selection is the
first such option's value — the first matching preference wins. -/
theorem language_preference_first_match :
    select_program_type_id [("42", "GNU G++17"), ("7", "GNU C++11")] "cpp" = some "42"
    ∧ ∀ (lang : String) (pre post : List String) (needle : String)
        (options : List (String × String)) (p : String × String),
      languagePreferences lang = pre ++ needle :: post →
      (∀ n ∈ pre, options.find? (fun q => strContains q.2 n) = none) →
      options.find? (fun q => strContains q.2 needle) = some p →
      select_program_type_id options lang = some p.1 := by
  constructor
  · decide
  · intro lang pre post needle options p hpl hpre hfind
    unfold select_program_type_id
    rw [hpl]
    clear hpl
    revert hpre
    induction pre with
    | nil =>
      intro _
      simp [selectByNeedles, hfind]
    | cons n ns ih =>
      intro hpre
      have hn := hpre n (List.mem_cons_self n ns)
      simp only [List.cons_append, selectByNeedles, hn]
      exact ih (fun m hm => hpre m (List.mem_cons_of_mem n hm))

/-- Witness for C7: the fixture decomposition with the two unmatched
newer-compiler needles in front. -/
theorem language_preference_first_match_witness :
    select_program_type_id [("42", "GNU G++17"), ("7", "GNU C++11")] "cpp"
      = some "42" :=
  language_preference_first_match.2 "cpp" ["GNU G++23", "GNU G++20"]
    ["GNU C++17", "GNU G++14"] "GNU G++17"
    [("42", "GNU G++17"), ("7", "GNU C++11")] ("42", "GNU G++17")
    (by decide) (by decide) (by decide)
